import Mathlib

/-!
Shallow embedding of the JWT authentication exercise `src/3c/ej3c2.py`:
configuration constants, the token codec (PyJWT `jwt.encode` / `jwt.decode`
as used by the code), the `jwt_required` decorator (`decorated_function`),
the `login` endpoint and the protected secret endpoint.

Modelling conventions:
- Timestamps are UTC instants in whole seconds (`Int`).  PyJWT serialises
  the `iat`/`exp` datetimes to integer POSIX seconds, and the ISO string
  in the login response body is truncated to whole seconds by
  `.replace(microsecond=0)`, so one second is exactly the granularity at
  which both sides of the code observe time.  Each separate
  `datetime.utcnow()` call in the Python code is a separate clock-read
  parameter here.
- A token string is abstracted by `TokenRepr`: either structurally
  malformed, or a well-formed JWT carrying the algorithm its header
  declares, the unique key under which its HMAC signature verifies, and
  its claims payload.  `jwt.encode(payload, key, alg)` produces the
  well-formed token for `(alg, key, payload)`; `jwt.decode` inspects
  exactly these three components plus the clock.  The repository only
  ever signs payloads of shape `{sub, iat, exp}` (see
  `generate_jwt_token`), and a forged token cannot verify under the
  server key, so payloads are represented by that claims record.
- The wire-to-representation parsing of incoming token strings is an
  arbitrary function `parse : String → TokenRepr`, universally
  quantified in the theorems: no property may depend on which concrete
  strings decode to which tokens.
- String handling of the `Authorization` header is modelled on the
  character sequence of the Python `str`, with Python semantics for
  `startswith`, `split` and `strip` (for the characters occurring here,
  Python and Lean agree on what whitespace is).
-/

namespace Ej3c2

/-- Python `s.startswith(p)` on the character sequence. -/
def pyStartswith (s p : String) : Bool :=
  p.data.isPrefixOf s.data

/-- Drop the first `n` characters of a Python `str`. -/
def pyDropChars (s : String) (n : Nat) : String :=
  ⟨s.data.drop n⟩

/-- Python `s.strip()`: remove leading and trailing whitespace. -/
def pyStrip (s : String) : String :=
  ⟨(((s.data.dropWhile Char.isWhitespace).reverse).dropWhile Char.isWhitespace).reverse⟩

/-- Server signing secret, `JWT_SECRET_KEY` (line 21). -/
def JWT_SECRET_KEY : String := "clave_secreta_jwt_para_firmar_tokens"

/-- Token lifetime `JWT_EXPIRATION_DELTA = datetime.timedelta(hours=1)`
(line 22), in seconds. -/
def JWT_EXPIRATION_DELTA : Int := 3600

/-- Static credential store `USER_CREDENTIALS` (lines 25-27). -/
def USER_CREDENTIALS : List (String × String) :=
  [("usuario_demo", "password123")]

/-- Claims payload of a token as built by `generate_jwt_token`:
`sub` (subject), `iat` (issued at), `exp` (expiration), lines 46-50. -/
structure Claims where
  sub : String
  iat : Int
  exp : Int
deriving DecidableEq

/-- Codec-level view of a token string.  `wf alg key payload` is a
structurally well-formed JWT whose header declares algorithm `alg`,
whose signature verifies exactly under `key`, and whose payload is
`payload`; `malformed` is any string PyJWT rejects structurally. -/
inductive TokenRepr where
  | malformed
  | wf (alg : String) (key : String) (payload : Claims)
deriving DecidableEq

/-- Outcome of `jwt.decode`, collapsed to the distinctions the calling
code observes: success, `jwt.ExpiredSignatureError`, or any other
`jwt.InvalidTokenError`. -/
inductive DecodeResult where
  | ok (payload : Claims)
  | expiredSignatureError
  | invalidTokenError
deriving DecidableEq

/-- PyJWT `jwt.encode(payload, key, algorithm)`: the well-formed token
declaring `algorithm`, signed under `key`, carrying `payload`. -/
def jwtEncode (payload : Claims) (key : String) (algorithm : String) : TokenRepr :=
  .wf algorithm key payload

/-- PyJWT `jwt.decode(token, key, algorithms)` at clock time `now`, in
the order PyJWT performs the checks: structural parse, header algorithm
against the allow-list, signature verification, then the `exp` claim
(`ExpiredSignatureError` exactly when `exp <= now`, only after the
signature and algorithm checks have passed). -/
def jwtDecode (t : TokenRepr) (key : String) (algorithms : List String)
    (now : Int) : DecodeResult :=
  match t with
  | .malformed => .invalidTokenError
  | .wf alg k payload =>
    if ¬ (alg ∈ algorithms) then .invalidTokenError
    else if k ≠ key then .invalidTokenError
    else if payload.exp ≤ now then .expiredSignatureError
    else .ok payload

/-- Function `generate_jwt_token(username)` (lines 29-57); `now` is the
`datetime.utcnow()` read of line 45. -/
def generate_jwt_token (username : String) (now : Int) : TokenRepr :=
  jwtEncode { sub := username, iat := now, exp := now + JWT_EXPIRATION_DELTA }
    JWT_SECRET_KEY "HS256"

/-- Response body of an endpoint, as the distinctions the code produces:
an error object, the secret payload, or the login payload.  In
`loginPayload` the token is carried at codec level and `expires_at` is
the instant denoted by the ISO-8601 string of line 169 (the ISO
rendering of whole-second instants is injective, so instant equality is
string equality). -/
inductive Body where
  | error (msg : String)
  | secretPayload (message : String) (secret : String)
  | loginPayload (token : TokenRepr) (expires_at : Int)
deriving DecidableEq

/-- Flask view return value: JSON body plus HTTP status code. -/
structure Response where
  body : Body
  status : Nat
deriving DecidableEq

/-- Request context as seen by a wrapped handler: the claims attached by
the guard for downstream use, if any (`none` when nothing is attached).
The Python code would realise an attachment by storing the payload of
`jwt.decode` on the request object or passing it to `func`. -/
abbrev Context := Option Claims

/-- Body of the `jwt_required` decorator, `decorated_function`
(lines 73-99).  `parse` maps the extracted token string to its codec
representation, `now` is the clock at the `jwt.decode` call, `func` is
the wrapped handler.  Under the `startswith("Bearer ")` guard the first
space of the header is the one ending the scheme keyword (`"Bearer"`
itself contains none), so `split(" ", 1)[1]` is the character drop of
the 7-character prefix. -/
def decorated_function (parse : String → TokenRepr) (now : Int)
    (func : Context → Response) (authHeader : Option String) : Response :=
  let auth_header := authHeader.getD ""
  if ! pyStartswith auth_header "Bearer " then
    { body := .error "Token inválido o ausente", status := 401 }
  else
    let token := pyStrip (pyDropChars auth_header 7)
    if token = "" then
      { body := .error "Token inválido o ausente", status := 401 }
    else
      match jwtDecode (parse token) JWT_SECRET_KEY ["HS256"] now with
      | .expiredSignatureError => { body := .error "Token expirado", status := 401 }
      | .invalidTokenError => { body := .error "Token inválido o ausente", status := 401 }
      | .ok _ => func none

/-- Handler `protected_secret` (lines 179-206): a fixed payload; the
request context is not consulted. -/
def protected_secret (_ctx : Context) : Response :=
  { body := .secretPayload "¡Has accedido al secreto con JWT!"
      "La respuesta a la vida, el universo y todo lo demás es 42",
    status := 200 }

/-- Route `GET /api/secret` (lines 177-178): `protected_secret` wrapped
by `jwt_required`. -/
def api_secret (parse : String → TokenRepr) (now : Int)
    (authHeader : Option String) : Response :=
  decorated_function parse now protected_secret authHeader

/-- JSON value of a parsed request body (`jnull` doubles as Python
`None`, which is also what `dict.get` returns for an absent key). -/
inductive JVal where
  | jnull
  | jbool (b : Bool)
  | jnum (n : Int)
  | jstr (s : String)
  | jarr (xs : List JVal)
  | jobj (fields : List (String × JVal))

/-- Python truthiness of a JSON value. -/
def JVal.truthy : JVal → Bool
  | .jnull => false
  | .jbool b => b
  | .jnum n => n != 0
  | .jstr s => s != ""
  | .jarr xs => ! xs.isEmpty
  | .jobj fields => ! fields.isEmpty

/-- Python `data.get(k)` on a JSON object: the field value, or `None`
(`jnull`) when the key is absent. -/
def jget (fields : List (String × JVal)) (k : String) : JVal :=
  match fields.lookup k with
  | some v => v
  | none => .jnull

/-- Exceptions the `login` body can raise (uncaught, they surface as an
HTTP 500 from Flask, not as a 401). -/
inductive PyError where
  | attributeError
  | typeError
deriving DecidableEq

/-- Python `USER_CREDENTIALS.get(username)` where `username` is the JSON
value taken from the request body.  Only a string key can hit the store
(its keys are strings, and Python equality across these types is
otherwise false, `True == 1` notwithstanding, since the store has no
numeric keys); a `list` or `dict` key is unhashable and makes `.get`
raise `TypeError`. -/
def credentialsGet : JVal → Except PyError (Option String)
  | .jstr s => .ok (USER_CREDENTIALS.lookup s)
  | .jarr _ => .error .typeError
  | .jobj _ => .error .typeError
  | _ => .ok none

/-- Python `==` between `USER_CREDENTIALS.get(username)` (a `str` from
the store, or `None`) and the JSON value bound to `"password"`. -/
def pyEqStoredPassword : Option String → JVal → Bool
  | none, .jnull => true
  | some s, .jstr t => s == t
  | _, _ => false

/-- String content of a JSON value, for the `generate_jwt_token(username)`
call site; in `login` that call is only reached when `username` is a
string present in the credential store. -/
def JVal.asString : JVal → String
  | .jstr s => s
  | _ => ""

/-- Route `POST /api/auth/login` (lines 128-174).  `body` is the result
of `request.get_json(silent=True)`: `none` when the request body is
absent or not valid JSON.  `now1` is the `datetime.utcnow()` read inside
`generate_jwt_token` (line 45); `now2` is the separate
`datetime.utcnow()` read of line 169 that produces the displayed
`expires_at`.  A truthy non-object body reaches `data.get` and raises
`AttributeError`; an unhashable truthy `username` raises `TypeError`
inside `USER_CREDENTIALS.get`. -/
def login (body : Option JVal) (now1 now2 : Int) : Except PyError Response :=
  let data : JVal :=
    match body with
    | none => .jobj []
    | some v => if v.truthy then v else .jobj []
  match data with
  | .jobj fields =>
    let username := jget fields "username"
    let password := jget fields "password"
    if ! username.truthy || ! password.truthy then
      .ok { body := .error "Credenciales inválidas", status := 401 }
    else
      match credentialsGet username with
      | .error e => .error e
      | .ok stored =>
        if ! pyEqStoredPassword stored password then
          .ok { body := .error "Credenciales inválidas", status := 401 }
        else
          .ok { body := .loginPayload (generate_jwt_token username.asString now1)
                  (now2 + JWT_EXPIRATION_DELTA),
                status := 200 }
  | _ => .error .attributeError

/-! Helper lemmas -/

lemma decorated_function_some_eq (parse : String → TokenRepr) (now : Int)
    (func : Context → Response) (h : String)
    (hb : pyStartswith h "Bearer " = true)
    (hne : pyStrip (pyDropChars h 7) ≠ "") :
    decorated_function parse now func (some h) =
      match jwtDecode (parse (pyStrip (pyDropChars h 7))) JWT_SECRET_KEY ["HS256"] now with
      | .expiredSignatureError => { body := .error "Token expirado", status := 401 }
      | .invalidTokenError => { body := .error "Token inválido o ausente", status := 401 }
      | .ok _ => func none := by
  simp [decorated_function, hb, hne]

/-! Theorems for the claims -/

/-- C2: for every claims set `c = {sub, iat, exp}`, decoding the token
produced by encoding `c` with `JWT_SECRET_KEY` under HS256 (as
`generate_jwt_token` does via `jwt.encode`) with the same secret and
algorithm returns claims equal to `c`, provided the decode happens at a
time strictly before the `exp` of `c`. -/
theorem C2_encode_decode_roundtrip (c : Claims) (t : Int) (ht : t < c.exp) :
    jwtDecode (jwtEncode c JWT_SECRET_KEY "HS256") JWT_SECRET_KEY ["HS256"] t
      = .ok c := by
  simp [jwtEncode, jwtDecode]
  omega

/-- Witness for C2 at a concrete claims set and time. -/
theorem C2_encode_decode_roundtrip_witness :
    jwtDecode (jwtEncode ⟨"usuario_demo", 0, 3600⟩ JWT_SECRET_KEY "HS256")
        JWT_SECRET_KEY ["HS256"] 0
      = .ok ⟨"usuario_demo", 0, 3600⟩ :=
  C2_encode_decode_roundtrip ⟨"usuario_demo", 0, 3600⟩ 0 (by decide)

lemma decorated_function_reject_header (parse : String → TokenRepr) (now : Int)
    (func : Context → Response) (authHeader : Option String)
    (hbad : authHeader = none
      ∨ pyStartswith (authHeader.getD "") "Bearer " = false
      ∨ pyStrip (pyDropChars (authHeader.getD "") 7) = "") :
    decorated_function parse now func authHeader
      = { body := .error "Token inválido o ausente", status := 401 } := by
  rcases hbad with hnone | hpre | hemp
  · subst hnone; rfl
  · simp [decorated_function, hpre]
  · by_cases hpre : pyStartswith (authHeader.getD "") "Bearer " = true
    · cases authHeader with
      | none => rfl
      | some s => simp_all [decorated_function]
    · rw [Bool.not_eq_true] at hpre
      simp [decorated_function, hpre]

/-- C7: when the Authorization header is absent, or does not start with
the case-sensitive prefix "Bearer ", or the remainder after that prefix
is empty once surrounding whitespace is stripped, the guard responds 401
with the fixed error body; the result is the same constant for every
token parse function and every wrapped handler, so neither the codec nor
the handler influences it. -/
theorem C7_guard_rejects_bad_header (parse : String → TokenRepr) (now : Int)
    (func : Context → Response) (authHeader : Option String)
    (hbad : authHeader = none
      ∨ pyStartswith (authHeader.getD "") "Bearer " = false
      ∨ pyStrip (pyDropChars (authHeader.getD "") 7) = "") :
    decorated_function parse now func authHeader
      = { body := .error "Token inválido o ausente", status := 401 } :=
  decorated_function_reject_header parse now func authHeader hbad

/-- Witness for C7 at a concrete rejected header. -/
theorem C7_guard_rejects_bad_header_witness :
    decorated_function (fun _ => .wf "HS256" JWT_SECRET_KEY ⟨"u", 0, 3600⟩) 0
        protected_secret (some "Token abc")
      = { body := .error "Token inválido o ausente", status := 401 } :=
  C7_guard_rejects_bad_header _ 0 protected_secret (some "Token abc")
    (Or.inr (Or.inl (by decide)))

/-- C8: a well-formed token whose header declares any algorithm other
than HS256 is rejected with 401 by the guard, whatever key its signature
verifies under (including the server key itself), and the wrapped
handler is not consulted (the result is the same for every handler). -/
theorem C8_foreign_algorithm_rejected (parse : String → TokenRepr) (now : Int)
    (func : Context → Response) (h : String) (alg key : String) (c : Claims)
    (hb : pyStartswith h "Bearer " = true)
    (hne : pyStrip (pyDropChars h 7) ≠ "")
    (hp : parse (pyStrip (pyDropChars h 7)) = .wf alg key c)
    (halg : alg ≠ "HS256") :
    decorated_function parse now func (some h)
      = { body := .error "Token inválido o ausente", status := 401 } := by
  rw [decorated_function_some_eq parse now func h hb hne, hp]
  simp [jwtDecode, halg]

/-- C1: for a GET request to /api/secret whose Authorization header
carries "Bearer " followed by a non-empty token, the wrapped handler is
invoked (200 with the secret payload) if and only if the token is well
formed, its signature verifies against JWT_SECRET_KEY under the trusted
algorithm HS256, and the clock is strictly before its exp claim; in
every other case the response is a 401 error.  The outcome is a function
of the parsed token and the clock alone: no other state occurs. -/
theorem C1_secret_access_iff (parse : String → TokenRepr) (now : Int) (h : String)
    (hb : pyStartswith h "Bearer " = true)
    (hne : pyStrip (pyDropChars h 7) ≠ "") :
    (api_secret parse now (some h)
        = { body := .secretPayload "¡Has accedido al secreto con JWT!"
              "La respuesta a la vida, el universo y todo lo demás es 42",
            status := 200 }
      ↔ ∃ c, parse (pyStrip (pyDropChars h 7)) = .wf "HS256" JWT_SECRET_KEY c
          ∧ now < c.exp)
    ∧ ((¬ ∃ c, parse (pyStrip (pyDropChars h 7)) = .wf "HS256" JWT_SECRET_KEY c
          ∧ now < c.exp) →
        ∃ msg, api_secret parse now (some h)
          = { body := .error msg, status := 401 }) := by
  unfold api_secret
  rw [decorated_function_some_eq parse now protected_secret h hb hne]
  cases hp : parse (pyStrip (pyDropChars h 7)) with
  | malformed =>
    simp [jwtDecode]
  | wf alg k c =>
    by_cases halg : alg = "HS256"
    · by_cases hk : k = JWT_SECRET_KEY
      · by_cases hexp : c.exp ≤ now
        · subst halg; subst hk
          simp [jwtDecode, hexp, protected_secret]
        · subst halg; subst hk
          simp [jwtDecode, hexp, protected_secret]
          omega
      · simp [jwtDecode, hk, protected_secret]
    · simp [jwtDecode, halg, protected_secret]

/-- Witness for C1: a correctly signed unexpired token yields the secret
payload. -/
theorem C1_secret_access_iff_witness :
    api_secret (fun _ => .wf "HS256" JWT_SECRET_KEY ⟨"usuario_demo", 0, 3600⟩) 0
        (some "Bearer tok")
      = { body := .secretPayload "¡Has accedido al secreto con JWT!"
            "La respuesta a la vida, el universo y todo lo demás es 42",
          status := 200 } :=
  ((C1_secret_access_iff (fun _ => .wf "HS256" JWT_SECRET_KEY ⟨"usuario_demo", 0, 3600⟩)
      0 "Bearer tok" (by decide) (by decide)).1).mpr
    ⟨⟨"usuario_demo", 0, 3600⟩, rfl, by decide⟩

/-- Witness for C8: an alg-"none" token signed under the server key is
still rejected. -/
theorem C8_foreign_algorithm_rejected_witness :
    decorated_function (fun _ => .wf "none" JWT_SECRET_KEY ⟨"u", 0, 3600⟩) 0
        protected_secret (some "Bearer tok")
      = { body := .error "Token inválido o ausente", status := 401 } :=
  C8_foreign_algorithm_rejected _ 0 protected_secret "Bearer tok" "none"
    JWT_SECRET_KEY ⟨"u", 0, 3600⟩ (by decide) (by decide) rfl (by decide)

/-- C4 counterexample: the decoded claims are not attached to the
request context.  A handler that reads the attached claims, wrapped by
the guard and given a valid token for subject "usuario_demo", does not
receive that subject: it is invoked with nothing attached. -/
theorem C4_claims_not_attached :
    decorated_function (fun _ => .wf "HS256" JWT_SECRET_KEY ⟨"usuario_demo", 0, 3600⟩) 0
        (fun ctx => { body := .error ((ctx.map Claims.sub).getD "no-claims"),
                      status := 200 })
        (some "Bearer tok")
      ≠ { body := .error "usuario_demo", status := 200 }
    ∧ decorated_function (fun _ => .wf "HS256" JWT_SECRET_KEY ⟨"usuario_demo", 0, 3600⟩) 0
        (fun ctx => { body := .error ((ctx.map Claims.sub).getD "no-claims"),
                      status := 200 })
        (some "Bearer tok")
      = { body := .error "no-claims", status := 200 } :=
  ⟨by decide, by decide⟩

/-- C4 (amended): on codec success the guard invokes the wrapped handler
with the request context unchanged — the decoded claims are discarded,
not attached, so the handler cannot read the authenticated subject from
the guard; on codec failure it responds 401 without invoking the handler
(the failure response is the same for every handler). -/
theorem C4_guard_forwarding (parse : String → TokenRepr) (now : Int)
    (func func2 : Context → Response) (h : String)
    (hb : pyStartswith h "Bearer " = true)
    (hne : pyStrip (pyDropChars h 7) ≠ "") :
    ((∃ c, jwtDecode (parse (pyStrip (pyDropChars h 7))) JWT_SECRET_KEY ["HS256"] now
          = .ok c) →
        decorated_function parse now func (some h) = func none)
    ∧ ((¬ ∃ c, jwtDecode (parse (pyStrip (pyDropChars h 7))) JWT_SECRET_KEY ["HS256"] now
          = .ok c) →
        (∃ msg, decorated_function parse now func (some h)
            = { body := .error msg, status := 401 })
          ∧ decorated_function parse now func2 (some h)
            = decorated_function parse now func (some h)) := by
  rw [decorated_function_some_eq parse now func h hb hne,
    decorated_function_some_eq parse now func2 h hb hne]
  cases hd : jwtDecode (parse (pyStrip (pyDropChars h 7))) JWT_SECRET_KEY ["HS256"] now with
  | ok c => simp
  | expiredSignatureError => simp
  | invalidTokenError => simp

/-- Witness for C4 (amended): concrete valid-token and expired-token
instances. -/
theorem C4_guard_forwarding_witness :
    decorated_function (fun _ => .wf "HS256" JWT_SECRET_KEY ⟨"u", 0, 3600⟩) 0
        protected_secret (some "Bearer tok")
      = protected_secret none :=
  (C4_guard_forwarding (fun _ => .wf "HS256" JWT_SECRET_KEY ⟨"u", 0, 3600⟩) 0
      protected_secret protected_secret "Bearer tok" (by decide) (by decide)).1
    ⟨⟨"u", 0, 3600⟩, by decide⟩

/-- C9: among the 401 responses of the guard, the body is the expired
message exactly when the header carries a well-formed token whose
signature verifies under the server key with algorithm HS256 but whose
exp claim is not in the future; every other 401 carries the generic
invalid-or-absent message. -/
theorem C9_message_partition (parse : String → TokenRepr) (now : Int)
    (authHeader : Option String) :
    (api_secret parse now authHeader = { body := .error "Token expirado", status := 401 }
      ↔ ∃ s c, authHeader = some s ∧ pyStartswith s "Bearer " = true
          ∧ pyStrip (pyDropChars s 7) ≠ ""
          ∧ parse (pyStrip (pyDropChars s 7)) = .wf "HS256" JWT_SECRET_KEY c
          ∧ c.exp ≤ now)
    ∧ ((api_secret parse now authHeader).status = 401
          ∧ api_secret parse now authHeader ≠ { body := .error "Token expirado", status := 401 }
        → api_secret parse now authHeader
            = { body := .error "Token inválido o ausente", status := 401 }) := by
  cases authHeader with
  | none =>
    have hres : api_secret parse now none
        = { body := .error "Token inválido o ausente", status := 401 } := rfl
    rw [hres]
    exact ⟨by simp, fun _ => rfl⟩
  | some s =>
    by_cases hb : pyStartswith s "Bearer " = true
    · by_cases hemp : pyStrip (pyDropChars s 7) = ""
      · have hres : api_secret parse now (some s)
            = { body := .error "Token inválido o ausente", status := 401 } :=
          decorated_function_reject_header parse now protected_secret (some s)
            (Or.inr (Or.inr hemp))
        rw [hres]
        refine ⟨⟨fun hfalse => absurd hfalse (by decide), ?_⟩, fun _ => rfl⟩
        rintro ⟨s1, c, hs, hb1, hne1, hp1, he1⟩
        injection hs with hs1
        subst hs1
        exact absurd hemp hne1
      · rw [show api_secret parse now (some s)
              = decorated_function parse now protected_secret (some s) from rfl,
          decorated_function_some_eq parse now protected_secret s hb hemp]
        cases hp : parse (pyStrip (pyDropChars s 7)) with
        | malformed =>
          simp [jwtDecode, hp, hb, hemp]
        | wf alg k c =>
          by_cases halg : alg = "HS256"
          · by_cases hk : k = JWT_SECRET_KEY
            · by_cases hexp : c.exp ≤ now
              · subst halg; subst hk
                simp [jwtDecode, hexp, hp, hb, hemp]
              · subst halg; subst hk
                simp [jwtDecode, hexp, hp, hb, hemp, protected_secret]
            · simp [jwtDecode, hk, hp, hb, hemp]
          · simp [jwtDecode, halg, hp, hb, hemp]
    · rw [Bool.not_eq_true] at hb
      have hres : api_secret parse now (some s)
          = { body := .error "Token inválido o ausente", status := 401 } :=
        decorated_function_reject_header parse now protected_secret (some s)
          (Or.inr (Or.inl hb))
      rw [hres]
      refine ⟨⟨fun hfalse => absurd hfalse (by decide), ?_⟩, fun _ => rfl⟩
      rintro ⟨s1, c, hs, hb1, hne1, hp1, he1⟩
      injection hs with hs1
      subst hs1
      rw [hb] at hb1
      exact absurd hb1 (by simp)

/-- Witness for C9: a correctly signed but expired token yields the
expired message. -/
theorem C9_message_partition_witness :
    api_secret (fun _ => .wf "HS256" JWT_SECRET_KEY ⟨"u", 0, 10⟩) 20 (some "Bearer t")
      = { body := .error "Token expirado", status := 401 } :=
  ((C9_message_partition (fun _ => .wf "HS256" JWT_SECRET_KEY ⟨"u", 0, 10⟩) 20
      (some "Bearer t")).1).mpr
    ⟨"Bearer t", ⟨"u", 0, 10⟩, rfl, by decide, by decide, rfl, by decide⟩

lemma login_jstr_eq (u p : String) (now1 now2 : Int) :
    login (some (.jobj [("username", .jstr u), ("password", .jstr p)])) now1 now2
      = if ! (u != "") || ! (p != "") then
          .ok { body := .error "Credenciales inválidas", status := 401 }
        else if ! pyEqStoredPassword (USER_CREDENTIALS.lookup u) (.jstr p) then
          .ok { body := .error "Credenciales inválidas", status := 401 }
        else
          .ok { body := .loginPayload (generate_jwt_token u now1)
                  (now2 + JWT_EXPIRATION_DELTA), status := 200 } := by
  rfl

/-- C3: for every (username, password) pair of the credential store,
login with that pair returns 200 carrying a token that decodes under the
server secret at any time before expiry, with subject equal to the
username. -/
theorem C3_login_issues_valid_token (u p : String)
    (hmem : (u, p) ∈ USER_CREDENTIALS) (now1 now2 t : Int)
    (ht : t < now1 + JWT_EXPIRATION_DELTA) :
    login (some (.jobj [("username", .jstr u), ("password", .jstr p)])) now1 now2
        = .ok { body := .loginPayload (generate_jwt_token u now1)
                  (now2 + JWT_EXPIRATION_DELTA),
                status := 200 }
      ∧ ∃ c, jwtDecode (generate_jwt_token u now1) JWT_SECRET_KEY ["HS256"] t = .ok c
          ∧ c.sub = u := by
  simp [USER_CREDENTIALS] at hmem
  obtain ⟨rfl, rfl⟩ := hmem
  refine ⟨rfl, ⟨"usuario_demo", now1, now1 + JWT_EXPIRATION_DELTA⟩, ?_, rfl⟩
  simp [generate_jwt_token, jwtEncode, jwtDecode]
  omega

/-- Witness for C3 at the stored pair and concrete times. -/
theorem C3_login_issues_valid_token_witness :
    login (some (.jobj [("username", .jstr "usuario_demo"),
        ("password", .jstr "password123")])) 0 0
        = .ok { body := .loginPayload (generate_jwt_token "usuario_demo" 0)
                  (0 + JWT_EXPIRATION_DELTA),
                status := 200 }
      ∧ ∃ c, jwtDecode (generate_jwt_token "usuario_demo" 0) JWT_SECRET_KEY ["HS256"] 5
          = .ok c ∧ c.sub = "usuario_demo" :=
  C3_login_issues_valid_token "usuario_demo" "password123" (by decide) 0 0 5 (by decide)

/-- C5 counterexample: the displayed expires_at comes from a second
utcnow read.  When the clock advances one second between token creation
and response formatting, the exp claim of the issued token (3600) and
the expires_at of the body (3601) denote different instants. -/
theorem C5_two_clock_reads_disagree :
    login (some (.jobj [("username", .jstr "usuario_demo"),
        ("password", .jstr "password123")])) 0 1
        = .ok { body := .loginPayload
                  (.wf "HS256" JWT_SECRET_KEY ⟨"usuario_demo", 0, 3600⟩) 3601,
                status := 200 }
      ∧ (Claims.mk "usuario_demo" 0 3600).exp ≠ (3601 : Int) :=
  ⟨rfl, by decide⟩

/-- C5 (amended): the expires_at of a successful login response equals
the exp claim of the returned token, both being the clock read plus the
1-hour JWT_EXPIRATION_DELTA, provided the two utcnow reads of the login
path (token generation, response formatting) return the same second. -/
theorem C5_expires_at_matches_exp (u p : String)
    (hmem : (u, p) ∈ USER_CREDENTIALS) (now : Int) :
    login (some (.jobj [("username", .jstr u), ("password", .jstr p)])) now now
      = .ok { body := .loginPayload
                (.wf "HS256" JWT_SECRET_KEY ⟨u, now, now + JWT_EXPIRATION_DELTA⟩)
                (now + JWT_EXPIRATION_DELTA),
              status := 200 } := by
  simp [USER_CREDENTIALS] at hmem
  obtain ⟨rfl, rfl⟩ := hmem
  rfl

/-- Witness for C5 (amended) at a concrete clock read. -/
theorem C5_expires_at_matches_exp_witness :
    login (some (.jobj [("username", .jstr "usuario_demo"),
        ("password", .jstr "password123")])) 7 7
      = .ok { body := .loginPayload
                (.wf "HS256" JWT_SECRET_KEY ⟨"usuario_demo", 7, 7 + JWT_EXPIRATION_DELTA⟩)
                (7 + JWT_EXPIRATION_DELTA),
              status := 200 } :=
  C5_expires_at_matches_exp "usuario_demo" "password123" (by decide) 7

/-- C6: every failing login request — unknown username with any
password, known username with a wrong password, or a missing username or
password field (or a missing body) — receives the identical response:
401 with the single error body, with no distinguishing signal. -/
theorem C6_login_failures_indistinguishable (now1 now2 : Int)
    (u1 p1 u2 p2 stored : String)
    (h1 : USER_CREDENTIALS.lookup u1 = none)
    (h2 : USER_CREDENTIALS.lookup u2 = some stored) (hw : p2 ≠ stored) :
    login (some (.jobj [("username", .jstr u1), ("password", .jstr p1)])) now1 now2
        = .ok { body := .error "Credenciales inválidas", status := 401 }
      ∧ login (some (.jobj [("username", .jstr u2), ("password", .jstr p2)])) now1 now2
        = .ok { body := .error "Credenciales inválidas", status := 401 }
      ∧ login (some (.jobj [("password", .jstr p1)])) now1 now2
        = .ok { body := .error "Credenciales inválidas", status := 401 }
      ∧ login (some (.jobj [("username", .jstr u1)])) now1 now2
        = .ok { body := .error "Credenciales inválidas", status := 401 }
      ∧ login none now1 now2
        = .ok { body := .error "Credenciales inválidas", status := 401 } := by
  have hm1 : pyEqStoredPassword (USER_CREDENTIALS.lookup u1) (.jstr p1) = false := by
    rw [h1]; rfl
  have hm2 : pyEqStoredPassword (USER_CREDENTIALS.lookup u2) (.jstr p2) = false := by
    rw [h2]
    show (stored == p2) = false
    rw [beq_eq_false_iff_ne]
    exact Ne.symm hw
  have hu2 : u2 ≠ "" := by
    intro h
    rw [h] at h2
    simp [USER_CREDENTIALS, List.lookup] at h2
  refine ⟨?_, ?_, rfl, ?_, rfl⟩
  · rw [login_jstr_eq]
    by_cases hu : u1 = ""
    · simp [hu]
    · by_cases hp : p1 = ""
      · simp [hp]
      · simp [bne_iff_ne, hu, hp, hm1]
  · rw [login_jstr_eq]
    by_cases hp : p2 = ""
    · simp [hp]
    · simp [bne_iff_ne, hu2, hp, hm2]
  · unfold login
    simp [jget, JVal.truthy, List.lookup]

/-- Witness for C6 at concrete failing requests. -/
theorem C6_login_failures_indistinguishable_witness :
    login (some (.jobj [("username", .jstr "nadie"), ("password", .jstr "x")])) 0 0
        = .ok { body := .error "Credenciales inválidas", status := 401 }
      ∧ login (some (.jobj [("username", .jstr "usuario_demo"),
            ("password", .jstr "incorrecta")])) 0 0
        = .ok { body := .error "Credenciales inválidas", status := 401 }
      ∧ login (some (.jobj [("password", .jstr "x")])) 0 0
        = .ok { body := .error "Credenciales inválidas", status := 401 }
      ∧ login (some (.jobj [("username", .jstr "nadie")])) 0 0
        = .ok { body := .error "Credenciales inválidas", status := 401 }
      ∧ login none 0 0
        = .ok { body := .error "Credenciales inválidas", status := 401 } :=
  C6_login_failures_indistinguishable 0 0 "nadie" "x" "usuario_demo" "incorrecta"
    "password123" (by decide) (by decide) (by decide)

lemma login_jobj_reject (fields : List (String × JVal)) (now1 now2 : Int)
    (hxa : ∀ xs, jget fields "username" ≠ .jarr xs)
    (hxo : ∀ fs, jget fields "username" ≠ .jobj fs)
    (hne : ¬ (jget fields "username" = .jstr "usuario_demo"
            ∧ jget fields "password" = .jstr "password123")) :
    login (some (.jobj fields)) now1 now2
      = .ok { body := .error "Credenciales inválidas", status := 401 } := by
  by_cases hf : JVal.truthy (.jobj fields) = true
  · unfold login
    simp only [hf, if_true]
    cases hU : jget fields "username" with
    | jarr xs => exact absurd hU (hxa xs)
    | jobj fs => exact absurd hU (hxo fs)
    | jnull => simp [JVal.truthy]
    | jbool b =>
      cases hP : jget fields "password" <;>
        simp [JVal.truthy, credentialsGet, pyEqStoredPassword]
    | jnum n =>
      cases hP : jget fields "password" <;>
        simp [JVal.truthy, credentialsGet, pyEqStoredPassword]
    | jstr u =>
      by_cases hu : u = "usuario_demo"
      · subst hu
        cases hP : jget fields "password" with
        | jstr t =>
          have ht : t ≠ "password123" := by
            intro h
            exact hne ⟨hU, by rw [hP, h]⟩
          have hb : (("password123" : String) == t) = false := by
            rw [beq_eq_false_iff_ne]
            exact Ne.symm ht
          simp [JVal.truthy, credentialsGet, pyEqStoredPassword,
            USER_CREDENTIALS, List.lookup, hb]
        | jnull => simp [JVal.truthy]
        | jbool b =>
          simp [JVal.truthy, credentialsGet, pyEqStoredPassword,
            USER_CREDENTIALS, List.lookup]
        | jnum n =>
          simp [JVal.truthy, credentialsGet, pyEqStoredPassword,
            USER_CREDENTIALS, List.lookup]
        | jarr xs =>
          simp [JVal.truthy, credentialsGet, pyEqStoredPassword,
            USER_CREDENTIALS, List.lookup]
        | jobj fs =>
          simp [JVal.truthy, credentialsGet, pyEqStoredPassword,
            USER_CREDENTIALS, List.lookup]
      · have hbu : (u == "usuario_demo") = false := beq_eq_false_iff_ne.mpr hu
        cases hP : jget fields "password" <;>
          simp [JVal.truthy, credentialsGet, pyEqStoredPassword,
            USER_CREDENTIALS, List.lookup, hbu]
  · rw [Bool.not_eq_true] at hf
    simp only [JVal.truthy] at hf
    unfold login
    simp [JVal.truthy, hf, jget, List.lookup]

/-- C10 counterexample: a request body that is valid JSON but a truthy
non-object — here the array [1] — makes the login code call .get on a
list, raising AttributeError (an unhandled exception, surfaced by Flask
as a 500), not the 401 credentials error. -/
theorem C10_nonobject_body_raises :
    login (some (.jarr [.jnum 1])) 0 0 = .error .attributeError
    ∧ login (some (.jarr [.jnum 1])) 0 0
        ≠ .ok { body := .error "Credenciales inválidas", status := 401 } := by
  refine ⟨rfl, ?_⟩
  intro h
  rw [show login (some (.jarr [.jnum 1])) 0 0 = .error .attributeError from rfl] at h
  exact Except.noConfusion h

/-- C10 (amended): a login request whose body is absent, not valid
JSON, a falsy JSON value, or a JSON object that does not carry the
stored credentials — provided its username field is not a list or
object, which would be unhashable — is handled exactly like wrong
credentials: 401 with the single error body and no exception.  (A
truthy non-object body raises AttributeError instead, and a list or
object username raises TypeError.) -/
theorem C10_login_rejects_bad_bodies (now1 now2 : Int) (body : Option JVal)
    (hbad : body = none
      ∨ (∃ v, body = some v ∧ v.truthy = false)
      ∨ (∃ fields, body = some (.jobj fields)
          ∧ (∀ xs, jget fields "username" ≠ .jarr xs)
          ∧ (∀ fs, jget fields "username" ≠ .jobj fs)
          ∧ ¬ (jget fields "username" = .jstr "usuario_demo"
              ∧ jget fields "password" = .jstr "password123"))) :
    login body now1 now2
      = .ok { body := .error "Credenciales inválidas", status := 401 } := by
  rcases hbad with rfl | ⟨v, rfl, hv⟩ | ⟨fields, rfl, hxa, hxo, hne⟩
  · rfl
  · cases v with
    | jnull => rfl
    | jbool b => simp [JVal.truthy] at hv; subst hv; rfl
    | jnum n => simp [JVal.truthy] at hv; subst hv; rfl
    | jstr s => simp [JVal.truthy] at hv; subst hv; rfl
    | jarr xs => simp [JVal.truthy] at hv; subst hv; rfl
    | jobj fields => simp [JVal.truthy] at hv; subst hv; rfl
  · exact login_jobj_reject fields now1 now2 hxa hxo hne

/-- Witness for C10 (amended): an object body with wrong string
credentials. -/
theorem C10_login_rejects_bad_bodies_witness :
    login (some (.jobj [("username", .jstr "x"), ("password", .jstr "y")])) 0 0
      = .ok { body := .error "Credenciales inválidas", status := 401 } := by
  apply C10_login_rejects_bad_bodies
  refine Or.inr (Or.inr ⟨_, rfl, ?_, ?_, ?_⟩)
  · intro xs
    simp [jget, List.lookup]
  · intro fs
    simp [jget, List.lookup]
  · simp [jget, List.lookup]

end Ej3c2
